import Mathlib

/-!
Shallow embedding of the resource-orchestration core of the `mcps` repository:
the browser pool (`BrowserManager` in `playwright-mcp/src/index.ts`), the
virtual-webcam device registry (`WebcamManager` in `src/webcam-tools.ts`), and
the per-call context discipline of the page-based tool handlers.

JavaScript `Map` objects are modelled as association lists with string keys,
up to `lookup` (a `set` replaces the existing binding for the key).  External
effects (signals sent, processes spawned, external commands run, sleeps) are
recorded in an explicit event trace.  Fallible external calls (`spawn`, the
browser engine launch, page operations) are parametrised by an oracle value of
type `Except`.
-/

/-- Association-list lookup over string keys, the model of `Map.get`. -/
def lookupKey {β : Type} : List (String × β) → String → Option β
  | [], _ => none
  | (k, v) :: rest, d => if k = d then some v else lookupKey rest d

/-- Removal of every binding of a key, the model of `Map.delete`. -/
def eraseKey {β : Type} : List (String × β) → String → List (String × β)
  | [], _ => []
  | (k, v) :: rest, d => if k = d then eraseKey rest d else (k, v) :: eraseKey rest d

/-- The model of `Map.set`: replace any existing binding of the key. -/
def insertKey {β : Type} (m : List (String × β)) (k : String) (v : β) : List (String × β) :=
  (k, v) :: eraseKey m k

/-- Number of bindings a key has in the map model. -/
def countKey {β : Type} : List (String × β) → String → Nat
  | [], _ => 0
  | (k, _) :: rest, d => (if k = d then 1 else 0) + countKey rest d

theorem lookupKey_eraseKey_self {β : Type} (m : List (String × β)) (d : String) :
    lookupKey (eraseKey m d) d = none := by
  induction m with
  | nil => rfl
  | cons hd tl ih =>
    obtain ⟨k, v⟩ := hd
    by_cases h : k = d
    · simp [eraseKey, h, ih]
    · simp [eraseKey, lookupKey, h, ih]

theorem lookupKey_insertKey_self {β : Type} (m : List (String × β)) (k : String) (v : β) :
    lookupKey (insertKey m k v) k = some v := by
  simp [insertKey, lookupKey]

theorem countKey_eraseKey_self {β : Type} (m : List (String × β)) (d : String) :
    countKey (eraseKey m d) d = 0 := by
  induction m with
  | nil => rfl
  | cons hd tl ih =>
    obtain ⟨k, v⟩ := hd
    by_cases h : k = d
    · simp [eraseKey, h, ih]
    · simp [eraseKey, countKey, h, ih]

theorem countKey_insertKey_self {β : Type} (m : List (String × β)) (k : String) (v : β) :
    countKey (insertKey m k v) k = 1 := by
  simp [insertKey, countKey, countKey_eraseKey_self]

namespace WebcamManager

/-- Model of a Node `ChildProcess` held by the registry: its pid and the
`killed` flag (set once `kill` has been called on it). -/
structure Proc where
  pid : Nat
  killed : Bool
deriving DecidableEq, Repr

/-- External effects performed by the webcam manager, in order.  `waitExit` is
the observable a wait-for-process-exit would produce; the source never emits
it. -/
inductive Event where
  | sigterm (pid : Nat)
  | spawn (cmd : List String)
  | execCmd (cmd : String)
  | sleep (ms : Nat)
  | waitExit (pid : Nat)
deriving DecidableEq, Repr

/-- The `ffmpegProcesses` map: device path to the recorded encoder process. -/
abbrev Registry := List (String × Proc)

def assetsDir : String := "/opt/mcp-playwright/webcam-assets"

/-- The mode strings accepted by the `switch` in `startWebcam`; any other
string falls to the `default` branch. -/
inductive Mode where
  | image
  | video
  | pattern
  | color
  | screen
  | text
deriving DecidableEq, Repr

def parseMode (s : String) : Option Mode :=
  if s = "image" then some Mode.image
  else if s = "video" then some Mode.video
  else if s = "pattern" then some Mode.pattern
  else if s = "color" then some Mode.color
  else if s = "screen" then some Mode.screen
  else if s = "text" then some Mode.text
  else none

/-- Parameters of `startWebcam`; `device`, `source` are optional, `loop` is a
truthiness test in the source so `false` also covers `undefined`. -/
structure StartParams where
  device : Option String
  mode : String
  source : Option String
  loop : Bool
deriving DecidableEq, Repr

/-- Result value of `startWebcam` (`WebcamResult` with its `data` payload
flattened). -/
structure WebcamResult where
  success : Bool
  message : Option String
  error : Option String
  dataDevice : Option String
  dataMode : Option String
  dataSource : Option String
deriving DecidableEq, Repr

/-- The ffmpeg command line built by each `case` of the `switch` in
`startWebcam`.  `textImagePath` is the file produced by `createTextImage`
for the `text` mode. -/
def buildCommand (m : Mode) (device : String) (source : Option String) (loop : Bool)
    (textImagePath : String) : List String :=
  match m with
  | Mode.image =>
    let imagePath := source.getD (assetsDir ++ "/test-pattern.jpg")
    ["ffmpeg", "-re", "-loop", if loop then "1" else "0", "-i", imagePath,
     "-f", "v4l2", "-vcodec", "rawvideo", "-pix_fmt", "yuv420p",
     "-s", "640x480", "-r", "30", device]
  | Mode.video =>
    let videoPath := source.getD (assetsDir ++ "/test-video.mp4")
    ["ffmpeg", "-re", "-stream_loop", if loop then "-1" else "0", "-i", videoPath,
     "-f", "v4l2", "-vcodec", "rawvideo", "-pix_fmt", "yuv420p", device]
  | Mode.pattern =>
    let pat := source.getD "smpte"
    ["ffmpeg", "-f", "lavfi", "-i", pat ++ "=size=640x480:rate=30",
     "-f", "v4l2", "-pix_fmt", "yuv420p", device]
  | Mode.color =>
    let col := source.getD "blue"
    ["ffmpeg", "-f", "lavfi", "-i", "color=c=" ++ col ++ ":size=640x480:rate=30",
     "-f", "v4l2", "-pix_fmt", "yuv420p", device]
  | Mode.screen =>
    let display := source.getD ":99"
    ["ffmpeg", "-f", "x11grab", "-r", "30", "-s", "1920x1080", "-i", display,
     "-vf", "scale=640:480", "-f", "v4l2", "-pix_fmt", "yuv420p", device]
  | Mode.text =>
    ["ffmpeg", "-re", "-loop", "1", "-i", textImagePath,
     "-f", "v4l2", "-vcodec", "rawvideo", "-pix_fmt", "yuv420p",
     "-s", "640x480", "-r", "30", device]

/-- `stopWebcam`: if the registry holds a process for the device, send it
SIGTERM and delete the entry; otherwise do nothing.  Returns the new registry
and the emitted events. -/
def stopWebcam (device : String) (r : Registry) : Registry × List Event :=
  match lookupKey r device with
  | some p => (eraseKey r device, [Event.sigterm p.pid])
  | none => (r, [])

/-- Path produced by `createTextImage` for a given timestamp. -/
def textImagePathAt (ts : Nat) : String :=
  assetsDir ++ "/text_" ++ toString ts ++ ".jpg"

/-- The ImageMagick command run by `createTextImage`. -/
def convertCommand (text : String) (ts : Nat) : String :=
  "convert -size 640x480 xc:lightblue -fill black -pointsize 36 -gravity center -draw " ++
    "\"text 0,0 \x27" ++ text ++ "\x27\" " ++ textImagePathAt ts

/-- `startWebcam`.  `sp` is the outcome of the `spawn` call (the external
process oracle); `ts` is the timestamp used by `createTextImage`.  Returns the
result value, the registry after the call, and the event trace in order.

Control flow of the source: default the device, call `stopWebcam(device)`
first, then `switch` on the mode (returning an `Unknown mode` error from the
`default` branch; running `createTextImage` before building the command in the
`text` branch), then inside `try`: `spawn`, record the process in the registry,
sleep 1000 ms, return success; `catch` returns a failure result. -/
def startWebcam (sp : Except String Proc) (ts : Nat) (p : StartParams) (r : Registry) :
    WebcamResult × Registry × List Event :=
  let device := p.device.getD "/dev/video20"
  let stopped := stopWebcam device r
  match parseMode p.mode with
  | none =>
    ({ success := false, message := none, error := some ("Unknown mode: " ++ p.mode),
       dataDevice := none, dataMode := none, dataSource := none },
     stopped.1, stopped.2)
  | some m =>
    let evText : List Event :=
      if m = Mode.text then [Event.execCmd (convertCommand (p.source.getD "MCP Playwright Webcam") ts)]
      else []
    let cmd := buildCommand m device p.source p.loop (textImagePathAt ts)
    match sp with
    | Except.error e =>
      ({ success := false, message := none, error := some ("Failed to start webcam: " ++ e),
         dataDevice := none, dataMode := none, dataSource := none },
       stopped.1, stopped.2 ++ evText ++ [Event.spawn cmd])
    | Except.ok proc =>
      ({ success := true,
         message := some ("Webcam started in " ++ p.mode ++ " mode on " ++ device),
         error := none,
         dataDevice := some device, dataMode := some p.mode, dataSource := p.source },
       insertKey stopped.1 device proc,
       stopped.2 ++ evText ++ [Event.spawn cmd, Event.sleep 1000])

/-- Status value returned by `getStatus`. -/
structure WebcamStatus where
  device : String
  devExists : Bool
  streaming : Bool
  mode : Option String
deriving DecidableEq, Repr

/-- `getStatus`: `devExists` is the outcome of the external `fs.access` check;
`streaming` is registry bookkeeping (`process ? !process.killed : false`); the
reported mode is the literal string `active` when streaming, else null. -/
def getStatus (device : String) (devExists : Bool) (r : Registry) : WebcamStatus :=
  let streaming := match lookupKey r device with
    | some p => !p.killed
    | none => false
  { device := device, devExists := devExists, streaming := streaming,
    mode := if streaming then some "active" else none }

/-- The `stop_webcam` tool handler in `index.ts`: defaults the device, calls
`stopWebcam`, and returns a success text unconditionally. -/
def stopWebcamTool (deviceArg : Option String) (r : Registry) :
    String × Registry × List Event :=
  let device := deviceArg.getD "/dev/video20"
  let stopped := stopWebcam device r
  ("Webcam stopped on " ++ device, stopped.1, stopped.2)

/-- `cleanup`: SIGTERM every recorded process, then clear the map. -/
def cleanup (r : Registry) : Registry × List Event :=
  ([], r.map (fun e => Event.sigterm e.2.pid))

end WebcamManager

namespace BrowserManager

/-- The three playwright engine types accepted by `getBrowser`. -/
inductive EngineType where
  | chromium
  | firefox
  | webkit
deriving DecidableEq, Repr

def EngineType.str : EngineType → String
  | EngineType.chromium => "chromium"
  | EngineType.firefox => "firefox"
  | EngineType.webkit => "webkit"

/-- The pool key built in `getBrowser`: the template literal
`type-headless`. -/
def browserKey (t : EngineType) (headless : Bool) : String :=
  t.str ++ "-" ++ (if headless then "true" else "false")

/-- Model of a playwright `Browser`: an identity for the launched engine
process and the engine library's connected/closed signal. -/
structure Browser where
  id : Nat
  connected : Bool
deriving DecidableEq, Repr

/-- The `browsers` map of `BrowserManager`, with instrumentation: `nextId`
names the next launched engine process, `launchCount` counts engine
launches. -/
structure PoolState where
  browsers : List (String × Browser)
  nextId : Nat
  launchCount : Nat
deriving DecidableEq, Repr

/-- `getBrowser` run atomically (a single caller, no interleaving): if the map
has no entry for the key, launch an engine and store it; then return the map's
entry for the key.  The source performs no liveness check on a stored
handle. -/
def getBrowser (t : EngineType) (headless : Bool) (s : PoolState) : Browser × PoolState :=
  let key := browserKey t headless
  match lookupKey s.browsers key with
  | some b => (b, s)
  | none =>
    let b : Browser := { id := s.nextId, connected := true }
    (b, { browsers := insertKey s.browsers key b,
          nextId := s.nextId + 1,
          launchCount := s.launchCount + 1 })

/-- `cleanup`: close every pooled browser, then clear the map.  Returns the
ids of the closed browsers as the effect trace. -/
def cleanup (s : PoolState) : PoolState × List Nat :=
  ({ s with browsers := [] }, s.browsers.map (fun e => e.2.id))

/-!
Interleaved semantics of `getBrowser` for concurrent callers.  The function is
`async` with one suspension point, the `await ...launch(...)`:

* from `start`, a caller checks `browsers.has(key)`; on a hit it proceeds to
  the final `return browsers.get(key)!`, on a miss it initiates an engine
  launch and suspends;
* on resumption (`launching`), it stores the newly launched browser with
  `browsers.set(key, browser)` and proceeds to the return;
* at `ret` it reads `browsers.get(key)!` and finishes.

Nothing in the source records a creation in flight, so the `has` check and the
`set` are separated by the suspension.
-/

inductive CallerPC where
  | start
  | launching
  | ret
  | done (b : Browser)
deriving DecidableEq, Repr

structure Caller where
  engType : EngineType
  headless : Bool
  pc : CallerPC
deriving DecidableEq, Repr

structure Sys where
  browsers : List (String × Browser)
  nextId : Nat
  launchCount : Nat
  callers : List Caller
deriving DecidableEq, Repr

/-- One scheduler step of caller `i`. -/
def stepCaller (s : Sys) (i : Nat) : Sys :=
  match s.callers[i]? with
  | none => s
  | some c =>
    let key := browserKey c.engType c.headless
    match c.pc with
    | CallerPC.start =>
      if (lookupKey s.browsers key).isSome then
        { s with callers := s.callers.set i { c with pc := CallerPC.ret } }
      else
        { s with launchCount := s.launchCount + 1,
                 callers := s.callers.set i { c with pc := CallerPC.launching } }
    | CallerPC.launching =>
      let b : Browser := { id := s.nextId, connected := true }
      { s with browsers := insertKey s.browsers key b,
               nextId := s.nextId + 1,
               callers := s.callers.set i { c with pc := CallerPC.ret } }
    | CallerPC.ret =>
      match lookupKey s.browsers key with
      | some b => { s with callers := s.callers.set i { c with pc := CallerPC.done b } }
      | none => s
    | CallerPC.done _ => s

/-- Run the interleaved system under a schedule (a list of caller indices). -/
def run (s : Sys) : List Nat → Sys
  | [] => s
  | i :: rest => run (stepCaller s i) rest

/-- Two concurrent callers, both requesting `chromium` headless, against an
empty pool. -/
def twoCallers : Sys :=
  { browsers := [], nextId := 0, launchCount := 0,
    callers := [{ engType := EngineType.chromium, headless := true, pc := CallerPC.start },
                { engType := EngineType.chromium, headless := true, pc := CallerPC.start }] }

/-- `n` sequential (non-overlapping) `getBrowser` calls with the same
configuration: the list of returned handles and the final state. -/
def runSeq (t : EngineType) (h : Bool) : Nat → PoolState → List Browser × PoolState
  | 0, s => ([], s)
  | n + 1, s =>
    let first := getBrowser t h s
    let rest := runSeq t h n first.2
    (first.1 :: rest.1, rest.2)

end BrowserManager

namespace Dispatch

open BrowserManager

/-- Per-call context events of a page-based tool handler. -/
inductive PageEvent where
  | openContext
  | pageOp
  | closeContext
deriving DecidableEq, Repr

/-- The shared shape of the page-based tool handlers (`navigate_to_page`,
`take_screenshot`, `extract_data`, `fill_form`, `test_website`,
`run_script`): acquire the pooled browser, open a fresh context
(`browser.newContext()`), run the page operations (`newPage`, `goto`,
`evaluate`, ... — modelled by the oracle `opResult`), then
`await context.close()` and return.  None of the handlers wraps the page
operations in `try`/`finally`: when an operation throws, the error propagates
to the dispatcher's outer `catch` and `context.close()` is never executed. -/
def pageToolHandler (t : EngineType) (headless : Bool) (opResult : Except String String)
    (s : PoolState) : Except String String × PoolState × List PageEvent :=
  let acquired := getBrowser t headless s
  match opResult with
  | Except.ok v =>
    (Except.ok v, acquired.2, [PageEvent.openContext, PageEvent.pageOp, PageEvent.closeContext])
  | Except.error e =>
    (Except.error e, acquired.2, [PageEvent.openContext])

end Dispatch

/-- The SIGINT/SIGTERM shutdown hook: `browserManager.cleanup()` then
`webcamManager.cleanup()`. -/
def lifecycleShutdown (ps : BrowserManager.PoolState) (r : WebcamManager.Registry) :
    BrowserManager.PoolState × WebcamManager.Registry :=
  ((BrowserManager.cleanup ps).1, (WebcamManager.cleanup r).1)

/-!
Helper lemmas shared by the claim theorems.
-/

theorem getBrowser_of_lookup_some (t : BrowserManager.EngineType) (h : Bool)
    (s : BrowserManager.PoolState) (b : BrowserManager.Browser)
    (hb : lookupKey s.browsers (BrowserManager.browserKey t h) = some b) :
    BrowserManager.getBrowser t h s = (b, s) := by
  simp [BrowserManager.getBrowser, hb]

theorem runSeq_stable (t : BrowserManager.EngineType) (h : Bool) (n : Nat)
    (s : BrowserManager.PoolState) (b : BrowserManager.Browser)
    (hb : lookupKey s.browsers (BrowserManager.browserKey t h) = some b) :
    BrowserManager.runSeq t h n s = (List.replicate n b, s) := by
  induction n with
  | zero => simp [BrowserManager.runSeq]
  | succ k ih =>
    simp [BrowserManager.runSeq, getBrowser_of_lookup_some t h s b hb, ih,
      List.replicate]

theorem lookup_after_getBrowser (t : BrowserManager.EngineType) (h : Bool)
    (s : BrowserManager.PoolState) :
    lookupKey (BrowserManager.getBrowser t h s).2.browsers (BrowserManager.browserKey t h) =
      some (BrowserManager.getBrowser t h s).1 := by
  unfold BrowserManager.getBrowser
  cases hl : lookupKey s.browsers (BrowserManager.browserKey t h) with
  | none => simp [hl, lookupKey_insertKey_self]
  | some b => simp [hl]

theorem spawn_not_mem_stopWebcam (d : String) (r : WebcamManager.Registry) (c : List String) :
    WebcamManager.Event.spawn c ∉ (WebcamManager.stopWebcam d r).2 := by
  unfold WebcamManager.stopWebcam
  cases lookupKey r d <;> simp

theorem waitExit_not_mem_stopWebcam (d : String) (r : WebcamManager.Registry) (n : Nat) :
    WebcamManager.Event.waitExit n ∉ (WebcamManager.stopWebcam d r).2 := by
  unfold WebcamManager.stopWebcam
  cases lookupKey r d <;> simp

/-!
Claim theorems.
-/

/-- Claim C8: after the shutdown hook completes (browser pool cleanup followed
by webcam registry cleanup), zero browser handles remain in the pool and zero
device streams remain registered, whatever was live beforehand. -/
theorem C8_shutdown_drains_all (ps : BrowserManager.PoolState) (r : WebcamManager.Registry) :
    (lifecycleShutdown ps r).1.browsers = [] ∧ (lifecycleShutdown ps r).2 = [] := by
  simp [lifecycleShutdown, BrowserManager.cleanup, WebcamManager.cleanup]

/-- Claim C9: `stopWebcam` on a device with no recorded stream is a no-op (the
registry is unchanged, no termination signal is emitted) and the `stop_webcam`
tool handler still returns its success text; on a device with a recorded
stream it emits exactly one SIGTERM to that process and removes the registry
entry. -/
theorem C9_idempotent_stop (r : WebcamManager.Registry) (d : String) :
    (lookupKey r d = none →
      WebcamManager.stopWebcam d r = (r, []) ∧
      WebcamManager.stopWebcamTool (some d) r = ("Webcam stopped on " ++ d, r, [])) ∧
    (∀ p : WebcamManager.Proc, lookupKey r d = some p →
      (WebcamManager.stopWebcam d r).2 = [WebcamManager.Event.sigterm p.pid] ∧
      lookupKey (WebcamManager.stopWebcam d r).1 d = none) := by
  constructor
  · intro h
    simp [WebcamManager.stopWebcam, WebcamManager.stopWebcamTool, h]
  · intro p h
    simp [WebcamManager.stopWebcam, h, lookupKey_eraseKey_self]

/-- Witness for C9 at a concrete device and registry. -/
theorem C9_idempotent_stop_witness :
    WebcamManager.stopWebcam "/dev/video20" [] = ([], []) ∧
    (WebcamManager.stopWebcam "/dev/video20"
        [("/dev/video20", { pid := 7, killed := false })]).2 =
      [WebcamManager.Event.sigterm 7] :=
  ⟨((C9_idempotent_stop [] "/dev/video20").1 (by decide)).1,
   ((C9_idempotent_stop [("/dev/video20", { pid := 7, killed := false })] "/dev/video20").2
      { pid := 7, killed := false } (by decide)).1⟩

/-- Claim C10: immediately after `stopWebcam d`, the registry holds no entry
for `d`, so `getStatus d` reports `streaming = false` and `mode = none`
(whatever the OS-level existence check returns), and a second `stopWebcam d`
is a no-op. -/
theorem C10_stop_status_roundtrip (r : WebcamManager.Registry) (d : String) (e : Bool) :
    lookupKey (WebcamManager.stopWebcam d r).1 d = none ∧
    WebcamManager.getStatus d e (WebcamManager.stopWebcam d r).1 =
      { device := d, devExists := e, streaming := false, mode := none } ∧
    WebcamManager.stopWebcam d (WebcamManager.stopWebcam d r).1 =
      ((WebcamManager.stopWebcam d r).1, []) := by
  have h : lookupKey (WebcamManager.stopWebcam d r).1 d = none := by
    unfold WebcamManager.stopWebcam
    cases hl : lookupKey r d with
    | none => simpa using hl
    | some p => simp [lookupKey_eraseKey_self]
  have noop : ∀ r' : WebcamManager.Registry, lookupKey r' d = none →
      WebcamManager.stopWebcam d r' = (r', []) := by
    intro r' h'
    simp [WebcamManager.stopWebcam, h']
  exact ⟨h, by simp [WebcamManager.getStatus, h], noop _ h⟩

/-- Claim C5: for a valid mode, `startWebcam` succeeds exactly when the spawn
oracle does not error; when the spawn errors the call returns a failure
result carrying the spawn error. -/
theorem C5_spawn_error_fails (sp : Except String WebcamManager.Proc) (ts : Nat)
    (p : WebcamManager.StartParams) (r : WebcamManager.Registry) (m : WebcamManager.Mode)
    (hm : WebcamManager.parseMode p.mode = some m) :
    ((WebcamManager.startWebcam sp ts p r).1.success = true ↔
      ∃ proc, sp = Except.ok proc) ∧
    (∀ e, sp = Except.error e →
      (WebcamManager.startWebcam sp ts p r).1.success = false ∧
      (WebcamManager.startWebcam sp ts p r).1.error =
        some ("Failed to start webcam: " ++ e)) := by
  cases sp with
  | error e => simp [WebcamManager.startWebcam, hm]
  | ok proc => simp [WebcamManager.startWebcam, hm]

/-- Witness for C5: spawning with a missing binary (`spawn ENOENT`) in mode
`color` yields a failure result. -/
theorem C5_spawn_error_fails_witness :
    (WebcamManager.startWebcam (Except.error "spawn ENOENT") 0
        { device := none, mode := "color", source := none, loop := false } []).1.success = false ∧
    (WebcamManager.startWebcam (Except.error "spawn ENOENT") 0
        { device := none, mode := "color", source := none, loop := false } []).1.error =
      some ("Failed to start webcam: " ++ "spawn ENOENT") :=
  (C5_spawn_error_fails (Except.error "spawn ENOENT") 0
      { device := none, mode := "color", source := none, loop := false } []
      WebcamManager.Mode.color (by decide)).2 "spawn ENOENT" rfl

/-- Counterexample to C1 as stated: two concurrent `getBrowser` callers with
the same key against an empty pool, interleaved so each performs its
`browsers.has(key)` check before either stores a handle, perform two engine
launches, not exactly one. -/
theorem C1_counterexample :
    (BrowserManager.run BrowserManager.twoCallers [0, 1, 0, 1, 0, 1]).launchCount = 2 ∧
    ¬ (BrowserManager.run BrowserManager.twoCallers [0, 1, 0, 1, 0, 1]).launchCount = 1 := by
  decide

/-- Claim C1 amended: for sequential (non-overlapping) `getBrowser` calls with
the same ResourceKey the claim holds — the first call against a pool with no
entry for the key performs exactly one launch and stores the handle, and every
subsequent call returns that same stored handle with no further launch.
Concurrent callers interleaved with an in-flight creation are not covered:
the source records nothing about creations in flight, so such callers can
each launch (see the counterexample). -/
theorem C1_pool_reuse_sequential (t : BrowserManager.EngineType) (h : Bool) (n : Nat)
    (s0 : BrowserManager.PoolState)
    (h0 : lookupKey s0.browsers (BrowserManager.browserKey t h) = none) :
    (BrowserManager.runSeq t h (n + 1) s0).2.launchCount = s0.launchCount + 1 ∧
    (BrowserManager.runSeq t h (n + 1) s0).1 =
      List.replicate (n + 1) (BrowserManager.getBrowser t h s0).1 := by
  have hfirst : BrowserManager.getBrowser t h s0 =
      ({ id := s0.nextId, connected := true },
       { browsers := insertKey s0.browsers (BrowserManager.browserKey t h)
           { id := s0.nextId, connected := true },
         nextId := s0.nextId + 1,
         launchCount := s0.launchCount + 1 }) := by
    simp [BrowserManager.getBrowser, h0]
  have hstable := runSeq_stable t h n (BrowserManager.getBrowser t h s0).2
      (BrowserManager.getBrowser t h s0).1 (lookup_after_getBrowser t h s0)
  have hlc : (BrowserManager.getBrowser t h s0).2.launchCount = s0.launchCount + 1 := by
    rw [hfirst]
  constructor
  · simp only [BrowserManager.runSeq]
    rw [hstable]
    exact hlc
  · simp only [BrowserManager.runSeq]
    rw [hstable]
    simp [List.replicate]

/-- Witness for C1 amended: three sequential chromium-headless calls against
an empty pool launch exactly once and all return the launched handle. -/
theorem C1_pool_reuse_sequential_witness :
    (BrowserManager.runSeq BrowserManager.EngineType.chromium true (2 + 1)
        { browsers := [], nextId := 0, launchCount := 0 }).2.launchCount =
      ({ browsers := [], nextId := 0, launchCount := 0 } : BrowserManager.PoolState).launchCount + 1 ∧
    (BrowserManager.runSeq BrowserManager.EngineType.chromium true (2 + 1)
        { browsers := [], nextId := 0, launchCount := 0 }).1 =
      List.replicate (2 + 1)
        (BrowserManager.getBrowser BrowserManager.EngineType.chromium true
          { browsers := [], nextId := 0, launchCount := 0 }).1 :=
  C1_pool_reuse_sequential BrowserManager.EngineType.chromium true 2
    { browsers := [], nextId := 0, launchCount := 0 } (by decide)

/-- Counterexample to C6 as stated: with a dead handle (`connected = false`)
stored for the chromium-headless key, the next `getBrowser` returns that same
dead handle unchanged — `launchCount` stays at 1, so no replacement is
created. -/
theorem C6_counterexample :
    (BrowserManager.getBrowser BrowserManager.EngineType.chromium true
        { browsers := [(BrowserManager.browserKey BrowserManager.EngineType.chromium true,
                        { id := 5, connected := false })],
          nextId := 6, launchCount := 1 }).1 =
      { id := 5, connected := false } ∧
    (BrowserManager.getBrowser BrowserManager.EngineType.chromium true
        { browsers := [(BrowserManager.browserKey BrowserManager.EngineType.chromium true,
                        { id := 5, connected := false })],
          nextId := 6, launchCount := 1 }).2.launchCount = 1 := by
  decide

/-- Claim C6 amended: `getBrowser` returns whatever handle the pool stores for
the key and leaves the state untouched, with no liveness inspection — in
particular a handle whose underlying process has died (`connected = false`)
is returned as-is and never discarded or replaced. -/
theorem C6_dead_handle_returned (t : BrowserManager.EngineType) (h : Bool)
    (s : BrowserManager.PoolState) (b : BrowserManager.Browser)
    (hb : lookupKey s.browsers (BrowserManager.browserKey t h) = some b) :
    BrowserManager.getBrowser t h s = (b, s) :=
  getBrowser_of_lookup_some t h s b hb

/-- Witness for C6 amended at a pool holding a dead chromium handle. -/
theorem C6_dead_handle_returned_witness :
    BrowserManager.getBrowser BrowserManager.EngineType.chromium true
        { browsers := [(BrowserManager.browserKey BrowserManager.EngineType.chromium true,
                        { id := 5, connected := false })],
          nextId := 6, launchCount := 1 } =
      ({ id := 5, connected := false },
       { browsers := [(BrowserManager.browserKey BrowserManager.EngineType.chromium true,
                       { id := 5, connected := false })],
         nextId := 6, launchCount := 1 }) :=
  C6_dead_handle_returned BrowserManager.EngineType.chromium true
    { browsers := [(BrowserManager.browserKey BrowserManager.EngineType.chromium true,
                    { id := 5, connected := false })],
      nextId := 6, launchCount := 1 }
    { id := 5, connected := false } (by decide)

/-- Counterexample to C2 as stated: starting mode `color` on a device whose
registry holds a live process (pid 7) sends SIGTERM and then spawns the
replacement immediately — the trace contains no wait for the old process's
exit between the signal and the spawn. -/
theorem C2_counterexample :
    (WebcamManager.startWebcam (Except.ok { pid := 8, killed := false }) 0
        { device := none, mode := "color", source := none, loop := false }
        [("/dev/video20", { pid := 7, killed := false })]).2.2 =
      [WebcamManager.Event.sigterm 7,
       WebcamManager.Event.spawn ["ffmpeg", "-f", "lavfi", "-i",
         "color=c=blue:size=640x480:rate=30", "-f", "v4l2", "-pix_fmt", "yuv420p",
         "/dev/video20"],
       WebcamManager.Event.sleep 1000] ∧
    WebcamManager.Event.waitExit 7 ∉
      (WebcamManager.startWebcam (Except.ok { pid := 8, killed := false }) 0
        { device := none, mode := "color", source := none, loop := false }
        [("/dev/video20", { pid := 7, killed := false })]).2.2 := by
  decide

/-- Claim C2 amended: starting a stream on a device with an active recorded
process first sends that process the termination signal (the very first event
of the trace) and removes its registry entry before spawning, and the registry
ends up recording exactly one process for the device — but the call never
waits for the old process's exit (no wait-for-exit observable occurs). -/
theorem C2_one_producer_recorded (sp : Except String WebcamManager.Proc) (ts : Nat)
    (p : WebcamManager.StartParams) (r : WebcamManager.Registry)
    (q : WebcamManager.Proc) (m : WebcamManager.Mode)
    (hm : WebcamManager.parseMode p.mode = some m)
    (hq : lookupKey r (p.device.getD "/dev/video20") = some q) :
    (WebcamManager.startWebcam sp ts p r).2.2.head? =
      some (WebcamManager.Event.sigterm q.pid) ∧
    (∀ n, WebcamManager.Event.waitExit n ∉ (WebcamManager.startWebcam sp ts p r).2.2) ∧
    (∀ proc, sp = Except.ok proc →
      lookupKey (WebcamManager.startWebcam sp ts p r).2.1 (p.device.getD "/dev/video20") =
        some proc ∧
      countKey (WebcamManager.startWebcam sp ts p r).2.1 (p.device.getD "/dev/video20") = 1) := by
  have hstop : WebcamManager.stopWebcam (p.device.getD "/dev/video20") r =
      (eraseKey r (p.device.getD "/dev/video20"), [WebcamManager.Event.sigterm q.pid]) := by
    simp [WebcamManager.stopWebcam, hq]
  cases sp with
  | error e =>
    refine ⟨?_, ?_, ?_⟩
    · simp [WebcamManager.startWebcam, hm, hstop]
    · intro n
      simp [WebcamManager.startWebcam, hm, hstop]
    · intro proc hproc
      exact absurd hproc (by simp)
  | ok proc₀ =>
    refine ⟨?_, ?_, ?_⟩
    · simp [WebcamManager.startWebcam, hm, hstop]
    · intro n
      simp [WebcamManager.startWebcam, hm, hstop]
    · intro proc hproc
      obtain rfl : proc₀ = proc := by simpa using hproc
      constructor
      · simp [WebcamManager.startWebcam, hm, hstop, lookupKey_insertKey_self]
      · simp [WebcamManager.startWebcam, hm, hstop, countKey_insertKey_self]

/-- Witness for C2 amended at the concrete replacement-start input. -/
theorem C2_one_producer_recorded_witness :
    (WebcamManager.startWebcam (Except.ok { pid := 8, killed := false }) 0
        { device := none, mode := "color", source := none, loop := false }
        [("/dev/video20", { pid := 7, killed := false })]).2.2.head? =
      some (WebcamManager.Event.sigterm 7) ∧
    lookupKey
        (WebcamManager.startWebcam (Except.ok { pid := 8, killed := false }) 0
          { device := none, mode := "color", source := none, loop := false }
          [("/dev/video20", { pid := 7, killed := false })]).2.1
        (Option.getD none "/dev/video20") =
      some { pid := 8, killed := false } := by
  have h := C2_one_producer_recorded (Except.ok { pid := 8, killed := false }) 0
    { device := none, mode := "color", source := none, loop := false }
    [("/dev/video20", { pid := 7, killed := false })]
    { pid := 7, killed := false } WebcamManager.Mode.color (by decide) (by decide)
  exact ⟨h.1, (h.2.2 { pid := 8, killed := false } rfl).1⟩

/-- Counterexample to C3 as stated: `startWebcam` with the invalid mode
`bogus` on a device with an active recorded stream returns a failure result,
but the existing stream has already been terminated — a SIGTERM was sent and
its registry entry removed before validation, because `stopWebcam` runs
before the mode `switch`. -/
theorem C3_counterexample :
    (WebcamManager.startWebcam (Except.ok { pid := 8, killed := false }) 0
        { device := none, mode := "bogus", source := none, loop := false }
        [("/dev/video20", { pid := 7, killed := false })]).1.success = false ∧
    (WebcamManager.startWebcam (Except.ok { pid := 8, killed := false }) 0
        { device := none, mode := "bogus", source := none, loop := false }
        [("/dev/video20", { pid := 7, killed := false })]).2.2 =
      [WebcamManager.Event.sigterm 7] ∧
    lookupKey
      (WebcamManager.startWebcam (Except.ok { pid := 8, killed := false }) 0
        { device := none, mode := "bogus", source := none, loop := false }
        [("/dev/video20", { pid := 7, killed := false })]).2.1 "/dev/video20" = none := by
  decide

/-- Claim C3 amended: for a mode outside the closed set, `startWebcam` returns
a failure result carrying the `Unknown mode` error, no encoder process is
spawned and no external command is run — but the call is exactly
`stopWebcam` on the device first: any existing stream on the device is
terminated (SIGTERM, entry removed) before validation. -/
theorem C3_invalid_mode (sp : Except String WebcamManager.Proc) (ts : Nat)
    (p : WebcamManager.StartParams) (r : WebcamManager.Registry)
    (hm : WebcamManager.parseMode p.mode = none) :
    (WebcamManager.startWebcam sp ts p r).1.success = false ∧
    (WebcamManager.startWebcam sp ts p r).1.error = some ("Unknown mode: " ++ p.mode) ∧
    (∀ c, WebcamManager.Event.spawn c ∉ (WebcamManager.startWebcam sp ts p r).2.2) ∧
    (WebcamManager.startWebcam sp ts p r).2.1 =
      (WebcamManager.stopWebcam (p.device.getD "/dev/video20") r).1 ∧
    (WebcamManager.startWebcam sp ts p r).2.2 =
      (WebcamManager.stopWebcam (p.device.getD "/dev/video20") r).2 := by
  refine ⟨?_, ?_, ?_, ?_, ?_⟩
  · simp [WebcamManager.startWebcam, hm]
  · simp [WebcamManager.startWebcam, hm]
  · intro c
    simp only [WebcamManager.startWebcam, hm]
    exact spawn_not_mem_stopWebcam _ _ c
  · simp [WebcamManager.startWebcam, hm]
  · simp [WebcamManager.startWebcam, hm]

/-- Witness for C3 amended at the concrete invalid-mode input. -/
theorem C3_invalid_mode_witness :
    (WebcamManager.startWebcam (Except.ok { pid := 8, killed := false }) 0
        { device := none, mode := "bogus", source := none, loop := false }
        [("/dev/video20", { pid := 7, killed := false })]).1.success = false ∧
    (WebcamManager.startWebcam (Except.ok { pid := 8, killed := false }) 0
        { device := none, mode := "bogus", source := none, loop := false }
        [("/dev/video20", { pid := 7, killed := false })]).1.error =
      some ("Unknown mode: " ++ "bogus") := by
  have h := C3_invalid_mode (Except.ok { pid := 8, killed := false }) 0
    { device := none, mode := "bogus", source := none, loop := false }
    [("/dev/video20", { pid := 7, killed := false })] (by decide)
  exact ⟨h.1, h.2.1⟩

/-- Counterexample to C4 as stated: after successfully starting mode
`pattern` on an empty registry, the status reports `streaming = true` but
`mode = "active"`, not the declared mode `pattern` — the registry stores only
the process, never the declared mode. -/
theorem C4_counterexample :
    (WebcamManager.getStatus "/dev/video20" true
        (WebcamManager.startWebcam (Except.ok { pid := 1, killed := false }) 0
          { device := none, mode := "pattern", source := none, loop := false } []).2.1).streaming =
      true ∧
    (WebcamManager.getStatus "/dev/video20" true
        (WebcamManager.startWebcam (Except.ok { pid := 1, killed := false }) 0
          { device := none, mode := "pattern", source := none, loop := false } []).2.1).mode =
      some "active" ∧
    ¬ (WebcamManager.getStatus "/dev/video20" true
        (WebcamManager.startWebcam (Except.ok { pid := 1, killed := false }) 0
          { device := none, mode := "pattern", source := none, loop := false } []).2.1).mode =
      some "pattern" := by
  decide

/-- Claim C4 amended: after a successful `startWebcam` (any valid mode, spawn
succeeded, process not killed) with no intervening stop, `getStatus` on the
device reports `streaming = true` and `mode = "active"` — a fixed marker
string rather than the declared mode of the running stream. -/
theorem C4_status_after_start (sp : Except String WebcamManager.Proc) (ts : Nat)
    (p : WebcamManager.StartParams) (r : WebcamManager.Registry)
    (proc : WebcamManager.Proc) (m : WebcamManager.Mode) (dEx : Bool)
    (hm : WebcamManager.parseMode p.mode = some m)
    (hsp : sp = Except.ok proc)
    (hk : proc.killed = false) :
    WebcamManager.getStatus (p.device.getD "/dev/video20") dEx
        (WebcamManager.startWebcam sp ts p r).2.1 =
      { device := p.device.getD "/dev/video20", devExists := dEx,
        streaming := true, mode := some "active" } := by
  subst hsp
  simp [WebcamManager.startWebcam, WebcamManager.getStatus, hm,
    lookupKey_insertKey_self, hk]

/-- Witness for C4 amended at the concrete `pattern` start. -/
theorem C4_status_after_start_witness :
    WebcamManager.getStatus (Option.getD none "/dev/video20") true
        (WebcamManager.startWebcam (Except.ok { pid := 1, killed := false }) 0
          { device := none, mode := "pattern", source := none, loop := false } []).2.1 =
      { device := Option.getD none "/dev/video20", devExists := true,
        streaming := true, mode := some "active" } :=
  C4_status_after_start (Except.ok { pid := 1, killed := false }) 0
    { device := none, mode := "pattern", source := none, loop := false } []
    { pid := 1, killed := false } WebcamManager.Mode.pattern true
    (by decide) rfl rfl

/-- Counterexample to C7 as stated: when the page operation throws (e.g., a
failed navigation), the handler's event trace opens the per-call context but
never closes it — no `context.close()` runs on the throw path, since no
handler uses `try`/`finally`. -/
theorem C7_counterexample :
    (Dispatch.pageToolHandler BrowserManager.EngineType.chromium true
        (Except.error "net::ERR_NAME_NOT_RESOLVED")
        { browsers := [], nextId := 0, launchCount := 0 }).2.2 =
      [Dispatch.PageEvent.openContext] ∧
    Dispatch.PageEvent.closeContext ∉
      (Dispatch.pageToolHandler BrowserManager.EngineType.chromium true
        (Except.error "net::ERR_NAME_NOT_RESOLVED")
        { browsers := [], nextId := 0, launchCount := 0 }).2.2 := by
  decide

/-- Claim C7 amended: every page-based tool handler opens a fresh per-call
context; on the success path it performs the page operation and closes the
context before returning, but when the page operation throws the error
propagates and the context is never closed (it leaks).  In both cases the
pooled browser handle remains stored in the pool. -/
theorem C7_context_per_call (t : BrowserManager.EngineType) (h : Bool)
    (opResult : Except String String) (s : BrowserManager.PoolState) :
    (∀ v, opResult = Except.ok v →
      (Dispatch.pageToolHandler t h opResult s).2.2 =
        [Dispatch.PageEvent.openContext, Dispatch.PageEvent.pageOp,
         Dispatch.PageEvent.closeContext]) ∧
    (∀ e, opResult = Except.error e →
      (Dispatch.pageToolHandler t h opResult s).2.2 = [Dispatch.PageEvent.openContext] ∧
      Dispatch.PageEvent.closeContext ∉ (Dispatch.pageToolHandler t h opResult s).2.2) ∧
    lookupKey (Dispatch.pageToolHandler t h opResult s).2.1.browsers
        (BrowserManager.browserKey t h) =
      some (BrowserManager.getBrowser t h s).1 := by
  refine ⟨?_, ?_, ?_⟩
  · intro v hv
    subst hv
    simp [Dispatch.pageToolHandler]
  · intro e he
    subst he
    simp [Dispatch.pageToolHandler]
  · cases opResult <;>
      simp [Dispatch.pageToolHandler, lookup_after_getBrowser]

/-- Witness for C7 amended at a concrete successful call. -/
theorem C7_context_per_call_witness :
    (Dispatch.pageToolHandler BrowserManager.EngineType.chromium true
        (Except.ok "page content")
        { browsers := [], nextId := 0, launchCount := 0 }).2.2 =
      [Dispatch.PageEvent.openContext, Dispatch.PageEvent.pageOp,
       Dispatch.PageEvent.closeContext] :=
  (C7_context_per_call BrowserManager.EngineType.chromium true
      (Except.ok "page content")
      { browsers := [], nextId := 0, launchCount := 0 }).1 "page content" rfl
